import Mathlib

/-!
Shallow embedding of `src/Odometer/Odometer.cpp` (differential-drive odometry
for Arduino robots).  The C++ `double`/`float` arithmetic is modelled over ℝ,
tick counts (`long`) and timestamps over ℤ.  The two `WheelEncoder`
collaborators are modelled by their observable state: the cumulative count each
one stores (zeroed by `write(0)`) and the `getCountsPerRevolution` constant,
which is passed to `setup` as an argument.  `millis()` is modelled by passing
the current clock reading `now` into the operations that call it; the
`Serial.print` diagnostics have no effect on the numeric state and are dropped.
-/

/-- Index of the left motor/encoder in the two-element wheel arrays
(`MOTOR_LEFT` comes from the external `Motor.h` header; only its distinctness
from `MOTOR_RIGHT` matters). -/
def MOTOR_LEFT : Fin 2 := 0

/-- Index of the right motor/encoder in the two-element wheel arrays. -/
def MOTOR_RIGHT : Fin 2 := 1

/-- The state of an `Odometer` object together with its two encoder
collaborators.  Fields are named after the C++ members. -/
structure OdometerState where
  /-- Cumulative count currently stored by each `WheelEncoder` collaborator
  (what `encoder[i]->read()` returns; `encoder[i]->write(0)` zeroes it). -/
  encoderCount : Fin 2 → ℤ
  wheelDiameter : Fin 2 → ℝ
  countsPerRevolution : Fin 2 → ℤ
  distancePerCount : Fin 2 → ℝ
  encodeFactor : Fin 2 → ℤ
  trackWidth : ℝ
  X : ℝ
  Y : ℝ
  heading : ℝ
  goalX : ℝ
  goalY : ℝ
  vLeft : ℝ
  vRight : ℝ
  omega : ℝ
  previousLeftEncoderCounts : ℤ
  previousRightEncoderCounts : ℤ
  previousUpdateTime : ℤ

/-- The C `atan2(y, x)`, modelled as the argument of the complex number
`x + y·i`, which lies in (−π, π] and is 0 at the origin, exactly as the C
library function. -/
noncomputable def atan2 (y x : ℝ) : ℝ := Complex.arg ⟨x, y⟩

/-- The Arduino `constrain(amt, low, high)` macro:
`(amt < low ? low : (amt > high ? high : amt))`. -/
noncomputable def constrain (amt low high : ℝ) : ℝ :=
  if amt < low then low else if amt > high then high else amt

/-- `Odometer::reset` (Odometer.cpp lines 61–68): writes 0 to both encoders,
zeroes the previous-count bookkeeping and restamps `previousUpdateTime` with
the current `millis()` reading `now`.  Position and heading are untouched. -/
def reset (s : OdometerState) (now : ℤ) : OdometerState :=
  { s with
    encoderCount := fun _ => 0
    previousLeftEncoderCounts := 0
    previousRightEncoderCounts := 0
    previousUpdateTime := now }

/-- `Odometer::setup` (Odometer.cpp lines 19–56).  `cpr i` stands for
`encoder[i]->getCountsPerRevolution()`.  The body performs no validation of
the inputs: it stores the calibration, computes
`distancePerCount[i] = PI * wheelDiameter[i] / countsPerRevolution[i]`,
zeroes `X, Y, heading, goalX, goalY, vLeft, vRight` (but not `omega`), and
finally calls `reset()`. -/
noncomputable def setup (s : OdometerState) (cpr : Fin 2 → ℤ)
    (isEncoderForward : Fin 2 → Bool) (inWheelDiameter : Fin 2 → ℝ)
    (inTrackWidth : ℝ) (now : ℤ) : OdometerState :=
  reset
    { s with
      wheelDiameter := inWheelDiameter
      countsPerRevolution := cpr
      distancePerCount := fun i => Real.pi * inWheelDiameter i / (cpr i : ℝ)
      encodeFactor := fun i => if isEncoderForward i then 1 else -1
      X := 0
      Y := 0
      heading := 0
      goalX := 0
      goalY := 0
      vLeft := 0
      vRight := 0
      trackWidth := inTrackWidth }
    now

/-- `Odometer::setCurrentPosition` (Odometer.cpp lines 70–75). -/
def setCurrentPosition (s : OdometerState) (x y inHeading : ℝ) (now : ℤ) :
    OdometerState :=
  { reset s now with X := x, Y := y, heading := inHeading }

/-- `Odometer::setGoalPosition` (Odometer.cpp lines 77–80). -/
def setGoalPosition (s : OdometerState) (x y : ℝ) : OdometerState :=
  { s with goalX := x, goalY := y }

/-- The local `leftEncoderCounts` of `Odometer::update` (line 88):
the left encoder's raw count with the wiring-direction sign applied. -/
def leftEncoderCounts (s : OdometerState) : ℤ :=
  s.encoderCount MOTOR_LEFT * s.encodeFactor MOTOR_LEFT

/-- The local `rightEncoderCounts` of `Odometer::update` (line 89). -/
def rightEncoderCounts (s : OdometerState) : ℤ :=
  s.encoderCount MOTOR_RIGHT * s.encodeFactor MOTOR_RIGHT

/-- The local `deltaLeftTicks` of `Odometer::update` (line 91). -/
def deltaLeftTicks (s : OdometerState) : ℤ :=
  leftEncoderCounts s - s.previousLeftEncoderCounts

/-- The local `deltaRightTicks` of `Odometer::update` (line 92). -/
def deltaRightTicks (s : OdometerState) : ℤ :=
  rightEncoderCounts s - s.previousRightEncoderCounts

/-- The local `deltaDistanceLeft` of `Odometer::update` (line 100). -/
noncomputable def deltaDistanceLeft (s : OdometerState) : ℝ :=
  (deltaLeftTicks s : ℝ) * s.distancePerCount MOTOR_LEFT

/-- The local `deltaDistanceRight` of `Odometer::update` (line 101). -/
noncomputable def deltaDistanceRight (s : OdometerState) : ℝ :=
  (deltaRightTicks s : ℝ) * s.distancePerCount MOTOR_RIGHT

/-- The local `deltaHeading` of `Odometer::update` (line 103). -/
noncomputable def deltaHeading (s : OdometerState) : ℝ :=
  (deltaDistanceRight s - deltaDistanceLeft s) / s.trackWidth

/-- `Odometer::calculateDeltasCrude` (Odometer.cpp lines 152–158), returning
the pair `(deltaX, deltaY)` instead of writing through out-parameters.  It
reads the `heading` member, which at its call site in `update` still holds the
heading from before the update. -/
noncomputable def calculateDeltasCrude (s : OdometerState)
    (inDeltaDistanceLeft inDeltaDistanceRight : ℝ) : ℝ × ℝ :=
  let deltaDistance := 0.5 * (inDeltaDistanceLeft + inDeltaDistanceRight)
  (deltaDistance * Real.cos s.heading, deltaDistance * Real.sin s.heading)

/-- `Odometer::update` (Odometer.cpp lines 87–150) with the current `millis()`
reading passed in as `now` (the same reading serves the `reset()` call made on
overflow, which happens within the same invocation). -/
noncomputable def update (s : OdometerState) (now : ℤ) : OdometerState :=
  let deltaTime : ℤ := now - s.previousUpdateTime
  let d := calculateDeltasCrude s (deltaDistanceLeft s) (deltaDistanceRight s)
  let s1 : OdometerState :=
    { s with
      previousLeftEncoderCounts := leftEncoderCounts s
      previousRightEncoderCounts := rightEncoderCounts s
      previousUpdateTime := now
      vLeft :=
        if deltaTime ≠ 0 then deltaDistanceLeft s * 1000 / (deltaTime : ℝ)
        else s.vLeft
      vRight :=
        if deltaTime ≠ 0 then deltaDistanceRight s * 1000 / (deltaTime : ℝ)
        else s.vRight
      omega :=
        if deltaTime ≠ 0 then deltaHeading s * 1000 / (deltaTime : ℝ)
        else s.omega
      X := s.X + d.1
      Y := s.Y + d.2
      heading :=
        atan2 (Real.sin (s.heading + deltaHeading s))
          (Real.cos (s.heading + deltaHeading s)) }
  if 32000 < leftEncoderCounts s ∨ 32000 < rightEncoderCounts s then
    reset s1 now
  else s1

/-- `Odometer::getLinearVelocity` (Odometer.cpp lines 178–180). -/
noncomputable def getLinearVelocity (s : OdometerState) : ℝ :=
  (s.vLeft + s.vRight) / 2

/-- `Odometer::translateToLeftRightVelocities` (Odometer.cpp lines 187–200),
returning the pair `(normLeft, normRight)`.  It is a plain function of its two
arguments; the C++ member reads and writes no `Odometer` state. -/
noncomputable def translateToLeftRightVelocities
    (normedLinearVelocity normedLinearAngularVelocity : ℝ) : ℝ × ℝ :=
  (constrain (normedLinearVelocity - normedLinearAngularVelocity) (-1) 1,
   constrain (normedLinearVelocity + normedLinearAngularVelocity) (-1) 1)

/-- `Odometer::calculateGoalHeading` (Odometer.cpp lines 206–209). -/
noncomputable def calculateGoalHeading (s : OdometerState) : ℝ :=
  atan2 (s.goalY - s.Y) (s.goalX - s.X)

/-- `Odometer::getNormalizedHeadingError(double)` (Odometer.cpp
lines 232–245). -/
noncomputable def getNormalizedHeadingError (s : OdometerState)
    (requiredHeading : ℝ) : ℝ :=
  let headingDiff := s.heading - requiredHeading
  atan2 (Real.sin headingDiff) (Real.cos headingDiff) / Real.pi

/-- `Odometer::getDistanceToGoal` (Odometer.cpp lines 247–254). -/
noncomputable def getDistanceToGoal (s : OdometerState) : ℝ :=
  Real.sqrt ((s.goalX - s.X) ^ 2 + (s.goalY - s.Y) ^ 2)

/-- A concrete, fully calibrated odometer state used to instantiate the
theorems below on explicit inputs. -/
noncomputable def baseState : OdometerState :=
  { encoderCount := fun _ => 0
    wheelDiameter := fun _ => 1
    countsPerRevolution := fun _ => 100
    distancePerCount := fun _ => 1
    encodeFactor := fun _ => 1
    trackWidth := 1
    X := 0
    Y := 0
    heading := 0
    goalX := 0
    goalY := 0
    vLeft := 0
    vRight := 0
    omega := 0
    previousLeftEncoderCounts := 0
    previousRightEncoderCounts := 0
    previousUpdateTime := 0 }

/-- `baseState` after the left encoder has accumulated 40000 counts: past the
overflow threshold. -/
noncomputable def overflowState : OdometerState :=
  { baseState with encoderCount := fun _ => 40000 }

/-- `baseState` after sustained reverse motion has driven both encoders to
−100000 counts. -/
noncomputable def reverseState : OdometerState :=
  { baseState with encoderCount := fun _ => -100000 }

/-- The argument of a complex number, and hence `atan2`, lies in (−π, π]. -/
theorem atan2_mem_Ioc (y x : ℝ) : atan2 y x ∈ Set.Ioc (-Real.pi) Real.pi :=
  Complex.arg_mem_Ioc _

/-- `atan2 0 1 = 0`: the wrap of a zero angle is zero. -/
theorem atan2_zero_one : atan2 (0 : ℝ) 1 = 0 := by
  have h : (⟨1, 0⟩ : ℂ) = 1 := Complex.ext (by simp) (by simp)
  unfold atan2
  rw [h, Complex.arg_one]

/-- `update` adds the `calculateDeltasCrude` x-component to `X`, whether or
not the overflow reset fires. -/
theorem update_X_eq (s : OdometerState) (now : ℤ) :
    (update s now).X =
      s.X + (calculateDeltasCrude s (deltaDistanceLeft s) (deltaDistanceRight s)).1 := by
  unfold update
  dsimp only
  split <;> rfl

/-- `update` adds the `calculateDeltasCrude` y-component to `Y`, whether or
not the overflow reset fires. -/
theorem update_Y_eq (s : OdometerState) (now : ℤ) :
    (update s now).Y =
      s.Y + (calculateDeltasCrude s (deltaDistanceLeft s) (deltaDistanceRight s)).2 := by
  unfold update
  dsimp only
  split <;> rfl

/-- `update` stores as the new heading the wrap (via `atan2`) of the old
heading plus `deltaHeading`, whether or not the overflow reset fires. -/
theorem update_heading_eq (s : OdometerState) (now : ℤ) :
    (update s now).heading =
      atan2 (Real.sin (s.heading + deltaHeading s))
        (Real.cos (s.heading + deltaHeading s)) := by
  unfold update
  dsimp only
  split <;> rfl

/-- The Arduino `constrain` to the interval [−1, 1] agrees with the
mathematical clamp `max (−1) (min 1 x)`. -/
theorem constrain_eq_clamp (x : ℝ) :
    constrain x (-1) 1 = max (-1) (min 1 x) := by
  unfold constrain
  split_ifs with h1 h2
  · rw [min_eq_right (by linarith), max_eq_left (by linarith)]
  · rw [min_eq_left (by linarith), max_eq_right (by norm_num)]
  · rw [min_eq_right (by linarith), max_eq_right (by linarith)]

/-- Claim C1: each `update` advances the pose by the midpoint (Euler) model:
the heading gains `(dR·distancePerCount[right] − dL·distancePerCount[left]) /
trackWidth` (before the final wrap), and x and y gain the average of the two
wheel arc distances projected on the pre-update heading via cosine/sine, where
`dL`/`dR` are the tick deltas after the encoder direction sign. -/
theorem update_midpoint_model (s : OdometerState) (now : ℤ) :
    (update s now).X =
      s.X + ((deltaLeftTicks s : ℝ) * s.distancePerCount MOTOR_LEFT +
          (deltaRightTicks s : ℝ) * s.distancePerCount MOTOR_RIGHT) / 2 *
        Real.cos s.heading ∧
    (update s now).Y =
      s.Y + ((deltaLeftTicks s : ℝ) * s.distancePerCount MOTOR_LEFT +
          (deltaRightTicks s : ℝ) * s.distancePerCount MOTOR_RIGHT) / 2 *
        Real.sin s.heading ∧
    (update s now).heading =
      atan2
        (Real.sin (s.heading +
          ((deltaRightTicks s : ℝ) * s.distancePerCount MOTOR_RIGHT -
              (deltaLeftTicks s : ℝ) * s.distancePerCount MOTOR_LEFT) /
            s.trackWidth))
        (Real.cos (s.heading +
          ((deltaRightTicks s : ℝ) * s.distancePerCount MOTOR_RIGHT -
              (deltaLeftTicks s : ℝ) * s.distancePerCount MOTOR_LEFT) /
            s.trackWidth)) := by
  refine ⟨?_, ?_, ?_⟩
  · rw [update_X_eq]
    unfold calculateDeltasCrude deltaDistanceLeft deltaDistanceRight
    dsimp only
    ring
  · rw [update_Y_eq]
    unfold calculateDeltasCrude deltaDistanceLeft deltaDistanceRight
    dsimp only
    ring
  · rw [update_heading_eq]
    unfold deltaHeading deltaDistanceLeft deltaDistanceRight
    rfl

/-- Claim C2: after every `update`, from any state and clock reading, the
stored heading lies in the half-open interval (−π, π]. -/
theorem update_heading_in_Ioc (s : OdometerState) (now : ℤ) :
    (update s now).heading ∈ Set.Ioc (-Real.pi) Real.pi := by
  rw [update_heading_eq]
  exact atan2_mem_Ioc _ _

/-- Claim C7: `reset` zeroes both encoders' cumulative counts and the
previous-count bookkeeping, stamps `previousUpdateTime` with the clock
reading, and leaves `X`, `Y` and `heading` unchanged. -/
theorem reset_effects (s : OdometerState) (now : ℤ) :
    (reset s now).encoderCount MOTOR_LEFT = 0 ∧
    (reset s now).encoderCount MOTOR_RIGHT = 0 ∧
    (reset s now).previousLeftEncoderCounts = 0 ∧
    (reset s now).previousRightEncoderCounts = 0 ∧
    (reset s now).previousUpdateTime = now ∧
    (reset s now).X = s.X ∧
    (reset s now).Y = s.Y ∧
    (reset s now).heading = s.heading :=
  ⟨rfl, rfl, rfl, rfl, rfl, rfl, rfl, rfl⟩

/-- Claim C3: when the elapsed time is zero, `update` leaves `vLeft`,
`vRight` and `omega` exactly at their pre-call values (no division by zero),
while `X`, `Y` and `heading` are still advanced by the integration step. -/
theorem update_zero_deltaTime (s : OdometerState) (now : ℤ)
    (h : now - s.previousUpdateTime = 0) :
    (update s now).vLeft = s.vLeft ∧
    (update s now).vRight = s.vRight ∧
    (update s now).omega = s.omega ∧
    (update s now).X =
      s.X + (calculateDeltasCrude s (deltaDistanceLeft s) (deltaDistanceRight s)).1 ∧
    (update s now).Y =
      s.Y + (calculateDeltasCrude s (deltaDistanceLeft s) (deltaDistanceRight s)).2 ∧
    (update s now).heading =
      atan2 (Real.sin (s.heading + deltaHeading s))
        (Real.cos (s.heading + deltaHeading s)) := by
  refine ⟨?_, ?_, ?_, update_X_eq s now, update_Y_eq s now, update_heading_eq s now⟩ <;>
  · unfold update
    dsimp only
    split <;> simp [reset, h]

/-- Witness for claim C3 at the concrete calibrated state and clock reading
0, where the elapsed time is zero. -/
theorem update_zero_deltaTime_witness :
    (update baseState 0).vLeft = baseState.vLeft ∧
    (update baseState 0).vRight = baseState.vRight ∧
    (update baseState 0).omega = baseState.omega ∧
    (update baseState 0).X =
      baseState.X +
        (calculateDeltasCrude baseState (deltaDistanceLeft baseState)
          (deltaDistanceRight baseState)).1 ∧
    (update baseState 0).Y =
      baseState.Y +
        (calculateDeltasCrude baseState (deltaDistanceLeft baseState)
          (deltaDistanceRight baseState)).2 ∧
    (update baseState 0).heading =
      atan2 (Real.sin (baseState.heading + deltaHeading baseState))
        (Real.cos (baseState.heading + deltaHeading baseState)) :=
  update_zero_deltaTime baseState 0 (by decide)

/-- Claim C5: when a post-update previous count exceeds 32000, `update`
performs the counter reset — both encoders zeroed, previous counts zeroed,
timestamp restamped — while `X`, `Y` and `heading` keep the values just
integrated for this interval. -/
theorem update_overflow_triggers_reset (s : OdometerState) (now : ℤ)
    (h : 32000 < leftEncoderCounts s ∨ 32000 < rightEncoderCounts s) :
    (update s now).encoderCount MOTOR_LEFT = 0 ∧
    (update s now).encoderCount MOTOR_RIGHT = 0 ∧
    (update s now).previousLeftEncoderCounts = 0 ∧
    (update s now).previousRightEncoderCounts = 0 ∧
    (update s now).previousUpdateTime = now ∧
    (update s now).X =
      s.X + (calculateDeltasCrude s (deltaDistanceLeft s) (deltaDistanceRight s)).1 ∧
    (update s now).Y =
      s.Y + (calculateDeltasCrude s (deltaDistanceLeft s) (deltaDistanceRight s)).2 ∧
    (update s now).heading =
      atan2 (Real.sin (s.heading + deltaHeading s))
        (Real.cos (s.heading + deltaHeading s)) := by
  refine ⟨?_, ?_, ?_, ?_, ?_, update_X_eq s now, update_Y_eq s now,
    update_heading_eq s now⟩ <;>
  · unfold update
    dsimp only
    rw [if_pos h]
    rfl

/-- Witness for claim C5: after the left encoder reaches 40000 counts, the
next `update` resets the counters. -/
theorem update_overflow_triggers_reset_witness :
    (update overflowState 1).encoderCount MOTOR_LEFT = 0 ∧
    (update overflowState 1).encoderCount MOTOR_RIGHT = 0 ∧
    (update overflowState 1).previousLeftEncoderCounts = 0 ∧
    (update overflowState 1).previousRightEncoderCounts = 0 ∧
    (update overflowState 1).previousUpdateTime = 1 ∧
    (update overflowState 1).X =
      overflowState.X +
        (calculateDeltasCrude overflowState (deltaDistanceLeft overflowState)
          (deltaDistanceRight overflowState)).1 ∧
    (update overflowState 1).Y =
      overflowState.Y +
        (calculateDeltasCrude overflowState (deltaDistanceLeft overflowState)
          (deltaDistanceRight overflowState)).2 ∧
    (update overflowState 1).heading =
      atan2 (Real.sin (overflowState.heading + deltaHeading overflowState))
        (Real.cos (overflowState.heading + deltaHeading overflowState)) :=
  update_overflow_triggers_reset overflowState 1 (Or.inl (by decide))

/-- Claim C10: the overflow guard fires only on positive exceedance — when
both signed previous counts are at most 32000, including arbitrarily negative
counts from reverse motion, no reset happens: the encoders keep their counts
and the previous-count bookkeeping stores the signed readings. -/
theorem update_no_reset_when_le (s : OdometerState) (now : ℤ)
    (hL : leftEncoderCounts s ≤ 32000) (hR : rightEncoderCounts s ≤ 32000) :
    (update s now).encoderCount = s.encoderCount ∧
    (update s now).previousLeftEncoderCounts = leftEncoderCounts s ∧
    (update s now).previousRightEncoderCounts = rightEncoderCounts s := by
  have hc : ¬(32000 < leftEncoderCounts s ∨ 32000 < rightEncoderCounts s) := by
    push_neg
    exact ⟨hL, hR⟩
  refine ⟨?_, ?_, ?_⟩ <;>
  · unfold update
    dsimp only
    rw [if_neg hc]

/-- Witness for claim C10: with both encoders at −100000 counts (deep in
negative wrap-around territory) no reset occurs. -/
theorem update_no_reset_when_le_witness :
    (update reverseState 1).encoderCount = reverseState.encoderCount ∧
    (update reverseState 1).previousLeftEncoderCounts =
      leftEncoderCounts reverseState ∧
    (update reverseState 1).previousRightEncoderCounts =
      rightEncoderCounts reverseState :=
  update_no_reset_when_le reverseState 1 (by decide) (by decide)

/-- Claim C6: `translateToLeftRightVelocities` is a pure function of its two
arguments computing `(clamp (linear − angular), clamp (linear + angular))`
with each side clamped to [−1, 1] independently; in particular it maps
`(1, 0)` to `(1, 1)` and `(0, 1)` to `(−1, 1)`. -/
theorem translateToLeftRightVelocities_spec (lin ang : ℝ) :
    (translateToLeftRightVelocities lin ang).1 = max (-1) (min 1 (lin - ang)) ∧
    (translateToLeftRightVelocities lin ang).2 = max (-1) (min 1 (lin + ang)) ∧
    translateToLeftRightVelocities 1 0 = (1, 1) ∧
    translateToLeftRightVelocities 0 1 = (-1, 1) := by
  refine ⟨constrain_eq_clamp _, constrain_eq_clamp _, ?_, ?_⟩
  · unfold translateToLeftRightVelocities constrain
    norm_num
  · unfold translateToLeftRightVelocities constrain
    norm_num

/-- Claim C9: `getNormalizedHeadingError` returns
`atan2 (sin (heading − required)) (cos (heading − required)) / π`, always in
[−1, 1], and is exactly 0 when the required heading equals the current one. -/
theorem getNormalizedHeadingError_spec (s : OdometerState)
    (requiredHeading : ℝ) :
    getNormalizedHeadingError s requiredHeading =
      atan2 (Real.sin (s.heading - requiredHeading))
        (Real.cos (s.heading - requiredHeading)) / Real.pi ∧
    getNormalizedHeadingError s requiredHeading ∈ Set.Icc (-1 : ℝ) 1 ∧
    getNormalizedHeadingError s s.heading = 0 := by
  refine ⟨rfl, ?_, ?_⟩
  · obtain ⟨h1, h2⟩ :=
      Set.mem_Ioc.mp
        (atan2_mem_Ioc (Real.sin (s.heading - requiredHeading))
          (Real.cos (s.heading - requiredHeading)))
    unfold getNormalizedHeadingError
    dsimp only
    refine Set.mem_Icc.mpr ⟨?_, ?_⟩
    · rw [le_div_iff₀ Real.pi_pos]
      linarith
    · rw [div_le_one Real.pi_pos]
      exact h2
  · unfold getNormalizedHeadingError
    dsimp only
    rw [sub_self, Real.sin_zero, Real.cos_zero, atan2_zero_one, zero_div]

/-- `baseState` with a non-zero angular-velocity estimate, as an earlier
`update` would leave it. -/
noncomputable def spinningState : OdometerState := { baseState with omega := 1 }

/-- Counterexample to claim C4: `setup` called with wheel diameter −2 and
counts-per-revolution 50 is not rejected — it completes like any other call
(pose zeroed, counters reset) and silently stores a negative
`distancePerCount`. -/
theorem setup_accepts_invalid_cex :
    (setup baseState (fun _ => 50) (fun _ => true) (fun _ => -2) 10
          0).distancePerCount MOTOR_LEFT < 0 ∧
    (setup baseState (fun _ => 50) (fun _ => true) (fun _ => -2) 10
        0).heading = 0 ∧
    (setup baseState (fun _ => 50) (fun _ => true) (fun _ => -2) 10
        0).previousUpdateTime = 0 := by
  refine ⟨?_, rfl, rfl⟩
  show Real.pi * (-2) / ((50 : ℤ) : ℝ) < 0
  apply div_neg_of_neg_of_pos
  · exact mul_neg_of_pos_of_neg Real.pi_pos (by norm_num)
  · norm_num

/-- Claim C4 (amended): `setup` performs no validation — a configuration with
a negative wheel diameter and positive counts-per-revolution is silently
accepted, initialization proceeds normally, and the resulting
`distancePerCount` is negative; no error is signaled to the caller. -/
theorem setup_silently_accepts (s : OdometerState) (cpr : Fin 2 → ℤ)
    (fwd : Fin 2 → Bool) (d : Fin 2 → ℝ) (tw : ℝ) (now : ℤ) (i : Fin 2)
    (hd : d i < 0) (hc : 0 < cpr i) :
    (setup s cpr fwd d tw now).distancePerCount i < 0 ∧
    (setup s cpr fwd d tw now).heading = 0 := by
  refine ⟨?_, rfl⟩
  show Real.pi * d i / (cpr i : ℝ) < 0
  apply div_neg_of_neg_of_pos
  · exact mul_neg_of_pos_of_neg Real.pi_pos hd
  · exact_mod_cast hc

/-- Witness for the amended claim C4 at a concrete invalid configuration:
diameter −1, 100 counts per revolution. -/
theorem setup_silently_accepts_witness :
    (setup baseState (fun _ => 100) (fun _ => true) (fun _ => -1) 10
          0).distancePerCount MOTOR_LEFT < 0 ∧
    (setup baseState (fun _ => 100) (fun _ => true) (fun _ => -1) 10
        0).heading = 0 :=
  setup_silently_accepts baseState (fun _ => 100) (fun _ => true)
    (fun _ => -1) 10 0 MOTOR_LEFT (by norm_num) (by decide)

/-- Counterexample to claim C8: a `setup` call with a valid configuration
(diameter 1, 100 counts per revolution) on a state whose `omega` is 1 leaves
`omega` at 1 — `setup` does not zero the angular-velocity field. -/
theorem setup_omega_cex :
    (setup spinningState (fun _ => 100) (fun _ => true) (fun _ => 1) 10
        0).omega ≠ 0 := by
  show (1 : ℝ) ≠ 0
  norm_num

/-- Claim C8 (amended): for every configuration, `setup` zeroes the pose
(x, y, heading), the wheel-velocity estimates `vLeft`/`vRight` and the goal,
and performs the equivalent of `reset`; the angular velocity `omega` alone is
left unchanged. -/
theorem setup_initializes_state (s : OdometerState) (cpr : Fin 2 → ℤ)
    (fwd : Fin 2 → Bool) (d : Fin 2 → ℝ) (tw : ℝ) (now : ℤ) :
    (setup s cpr fwd d tw now).X = 0 ∧
    (setup s cpr fwd d tw now).Y = 0 ∧
    (setup s cpr fwd d tw now).heading = 0 ∧
    (setup s cpr fwd d tw now).goalX = 0 ∧
    (setup s cpr fwd d tw now).goalY = 0 ∧
    (setup s cpr fwd d tw now).vLeft = 0 ∧
    (setup s cpr fwd d tw now).vRight = 0 ∧
    (setup s cpr fwd d tw now).omega = s.omega ∧
    (setup s cpr fwd d tw now).encoderCount MOTOR_LEFT = 0 ∧
    (setup s cpr fwd d tw now).encoderCount MOTOR_RIGHT = 0 ∧
    (setup s cpr fwd d tw now).previousLeftEncoderCounts = 0 ∧
    (setup s cpr fwd d tw now).previousRightEncoderCounts = 0 ∧
    (setup s cpr fwd d tw now).previousUpdateTime = now :=
  ⟨rfl, rfl, rfl, rfl, rfl, rfl, rfl, rfl, rfl, rfl, rfl, rfl, rfl⟩
